import Mathlib

/-!
# Verification of the AWS event-notification dispatch subsystem

A shallow embedding of `src/python/ray/autoscaler/_private/aws/events.py`
(and the abstract publisher interface in
`src/python/ray/autoscaler/_private/event_publisher.py`).

Python dictionaries are embedded as association lists with unique keys,
with the source's dict operations (`d[k]`, `d.pop(k)`, `d.get(k, default)`,
`{**d, k: v, ...}`, `d[k] = v`) embedded as executable functions below.
Machinery that the repository imports from files not present here
(`event_system.py`, `updater.NodeContext`, the SNS transport client and
`cli_logger.abort`) is modelled from the specification; each such
definition carries a doc comment saying so.
-/

set_option autoImplicit false

namespace AwsEvents

/-- Modelled from the spec: `event_system.py` is not part of the sources here.
An `EventKind` ("RayEvent") is an opaque catalog entry with a display `name`
and a stable integer rank (the enum `value`), used to derive a zero-indexed
sequence number as `value - 1`. -/
structure RayEvent where
  name : String
  value : Int
  deriving DecidableEq

/-- Modelled from the spec: the source callback reads `event.state` for the
message's state field, and the spec fixes that field to be the event's
display name ("state: string // event display name"). -/
def RayEvent.state (e : RayEvent) : String := e.name

/-- Modelled from the spec: `updater.NodeContext` is not part of the sources
here; the spec gives `{ node_id: string, is_head_node: bool }`. -/
structure NodeContext where
  node_id : String
  is_head_node : Bool
  deriving DecidableEq

/-- A Python value, as far as the dispatch subsystem inspects values:
strings, integers, booleans, `RayEvent` enum members, `NodeContext`
mappings and generic string-keyed dictionaries. -/
inductive PyVal where
  | str : String → PyVal
  | int : Int → PyVal
  | bool : Bool → PyVal
  | event : RayEvent → PyVal
  | ctx : NodeContext → PyVal
  | dict : List (String × PyVal) → PyVal

/-- A Python dictionary with string keys: an association list; Python
dictionaries have unique keys and preserve insertion order. -/
abbrev Dict := List (String × PyVal)

/-- Dictionary lookup, `d.get(k)` / `d[k]`: the value at the first
occurrence of the key, if any. -/
def getVal : Dict → String → Option PyVal
  | [], _ => none
  | (k, v) :: rest, key => if k = key then some v else getVal rest key

/-- Key removal (the removal half of `d.pop(k)`): deletes the key's
entries, preserving the order of the others. -/
def eraseKey : Dict → String → Dict
  | [], _ => []
  | (k, v) :: rest, key => if k = key then eraseKey rest key else (k, v) :: eraseKey rest key

/-- Python dict update, `d[k] = v` and each step of `{**d, k: v}`: replace
the value in place when the key is present, append otherwise. -/
def setKey : Dict → String → PyVal → Dict
  | [], key, v => [(key, v)]
  | (k, w) :: rest, key, v =>
    if k = key then (key, v) :: rest else (k, w) :: setKey rest key v

/-- Python `d.pop(k)`: the value plus the dictionary without the key, or
`none` (a `KeyError`) when the key is absent. -/
def popKey (d : Dict) (key : String) : Option (PyVal × Dict) :=
  match getVal d key with
  | none => none
  | some v => some (v, eraseKey d key)

/-- `copy.deepcopy` on a dictionary: with value semantics in the embedding,
a deep copy is an equal but independent value, so the caller's dictionary
is unaffected by any update applied to the copy. -/
def deepcopy (d : Dict) : Dict := d

/-- Python truthiness, `if x:` — empty strings, zero, `False` and empty
dicts are falsy; a `NodeContext` is a mapping with two required keys and
hence always truthy. -/
def truthy : PyVal → Bool
  | .str s => !s.isEmpty
  | .int n => if n = 0 then false else true
  | .bool b => b
  | .event _ => true
  | .ctx _ => true
  | .dict d => !d.isEmpty

/-- A Python exception, as far as the subsystem distinguishes them. -/
inductive PyExc where
  | keyError : String → PyExc
  | indexError : PyExc
  | attributeError : PyExc
  | typeError : PyExc
  | notImplementedError : String → PyExc
  | other : String → PyExc
  deriving DecidableEq

/-- Python subscripting `v[k]` on a value: defined on mappings (including a
`NodeContext`, which subscripts by its two field names), a `KeyError` on a
missing key, a `TypeError` on non-mapping values. -/
def subscript (v : PyVal) (key : String) : Except PyExc PyVal :=
  match v with
  | .dict d =>
    match getVal d key with
    | some x => .ok x
    | none => .error (.keyError key)
  | .ctx c =>
    if key = "node_id" then .ok (.str c.node_id)
    else if key = "is_head_node" then .ok (.bool c.is_head_node)
    else .error (.keyError key)
  | _ => .error .typeError

/-- Python `sub in s` on lists of characters: some tail of `l` starts
with `pat`. -/
def listContainsSub (l pat : List Char) : Bool :=
  l.tails.any (fun t => pat.isPrefixOf t)

/-- Python substring test `sub in s`. -/
def pyContains (s sub : String) : Bool :=
  listContainsSub s.data sub.data

/-- Python `s.startswith(pre)`. -/
def pyStartsWith (s pre : String) : Bool :=
  pre.data.isPrefixOf s.data

/-! ## The event manager and its registration logic (`events.py`) -/

/-- The registered callback handlers and the call-time arguments bound to
them by `AwsEventManagerBase.add_callback`: the SNS handler is a bound
method carrying the manager's topic ARN, and is registered together with
`SnsHelper(self._get_region())` (embedded as the region string it is built
from — the binding exists only when `_get_region` returned one) and the
manager's parameters as keyword context; the three stub handlers are
registered with no bound arguments. -/
inductive Handler where
  | snsCb : String → String → Dict → Handler
  | lambdaCb : Handler
  | cloudwatchCb : Handler
  | apiGatewayCb : Handler

/-- The extra-parameter context a registered binding carries (the keyword
arguments passed to `add_callback_handler`). -/
def contextOf : Handler → Dict
  | .snsCb _ _ params => params
  | _ => []

/-- Modelled from the spec: the callback registry of `event_system.py` is
not part of the sources here; it maps each event kind to the ordered list
of bindings, preserving registration order. -/
abbrev Registry := List (RayEvent × Handler)

/-- Modelled from the spec: `_EventSystem.add_callback_handler` appends a
binding for the event (duplicates allowed, no dedup). -/
def addCallbackHandler (reg : Registry) (e : RayEvent) (h : Handler) : Registry :=
  reg ++ [(e, h)]

/-- Python `s.split(c)` on the character list: splits at every occurrence
of the separator; a list with no separator yields one piece, and every
separator adds a piece. -/
def splitOnChar (l : List Char) (c : Char) : List (List Char) :=
  match l with
  | [] => [[]]
  | a :: rest =>
    let r := splitOnChar rest c
    if a = c then [] :: r
    else
      match r with
      | [] => [[a]]
      | s :: ss => (a :: s) :: ss

/-- Python `s.split(sep)` for a one-character separator. -/
def pySplit (s : String) (c : Char) : List String :=
  (splitOnChar s.data c).map (fun l => ⟨l⟩)

/-- `AwsEventManagerBase._get_region`: `self.uri.split(":")[3]`, `none`
standing for the `IndexError` when the ARN has fewer than four parts. -/
def getRegion (uri : String) : Option String :=
  (pySplit uri ':').get? 3

/-- The state of a constructed `AwsEventManager`: the notification URI and
the extra parameters from the events config. -/
structure AwsEventManager where
  uri : String
  parameters : Dict

/-- The `events` configuration mapping handed to `AwsEventManager.__init__`:
`notification_uri` may be absent (`none`), present but `None`
(`some none`), or a string; `parameters` may be absent. -/
structure EventsConfig where
  notification_uri : Option (Option String)
  parameters : Option Dict

/-- How `AwsEventManager.__init__` can fail: a `KeyError` on a missing
`notification_uri` entry, or an `AssertionError` from one of its two
asserts. -/
inductive InitError where
  | keyErrorUri : InitError
  | assertionError : String → InitError
  deriving DecidableEq

/-- `AwsEventManager.__init__`: reads `events_config["notification_uri"]`
(`KeyError` when absent), asserts it is not `None`, asserts `"arn:aws"`
occurs in it, and takes `events_config.get("parameters", {})`. -/
def AwsEventManager.init (cfg : EventsConfig) : Except InitError AwsEventManager :=
  match cfg.notification_uri with
  | none => .error .keyErrorUri
  | some none => .error (.assertionError "`notification_uri` is a required field in `events`")
  | some (some uri) =>
    if pyContains uri "arn:aws" then
      .ok ⟨uri, cfg.parameters.getD []⟩
    else
      .error (.assertionError ("Invalid ARN specified: " ++ uri))

/-- `AwsEventManagerBase.add_callback`: matches the URI against the fixed
ordered chain of scheme tests; on the first match appends one binding for
the event via the registry; with no match, appends nothing. The SNS branch
evaluates `SnsHelper(self._get_region())` before registering, so when
`self.uri.split(":")` has fewer than four parts the `IndexError` from
`_get_region` escapes and no binding is appended. Only the SNS branch
passes `**self.parameters` (and the `SnsHelper`) to the registration. -/
def addCallback (mgr : AwsEventManager) (e : RayEvent) (reg : Registry) :
    Except PyExc Registry :=
  if pyStartsWith mgr.uri "arn:aws:sns" then
    match getRegion mgr.uri with
    | none => .error .indexError
    | some region =>
      .ok (addCallbackHandler reg e (.snsCb mgr.uri region mgr.parameters))
  else if pyStartsWith mgr.uri "arn:aws:lambda" then
    .ok (addCallbackHandler reg e .lambdaCb)
  else if pyStartsWith mgr.uri "arn:aws:logs" then
    .ok (addCallbackHandler reg e .cloudwatchCb)
  else if pyStartsWith mgr.uri "arn:aws:apigateway" then
    .ok (addCallbackHandler reg e .apiGatewayCb)
  else
    .ok reg

/-- The registration loop of `AwsEventPublisher.__init__`: one
`add_callback` call per catalog event, in order. An exception from a call
propagates immediately, leaving in place exactly the registrations made by
the earlier iterations. -/
def registerAll (mgr : AwsEventManager) : List RayEvent → Registry → Registry × Option PyExc
  | [], reg => (reg, none)
  | e :: rest, reg =>
    match addCallback mgr e reg with
    | .error ex => (reg, some ex)
    | .ok reg2 => registerAll mgr rest reg2

/-- How `AwsEventPublisher.__init__` can fail: a configuration error from
`AwsEventManager.__init__`, or an exception raised while registering the
callbacks (the `IndexError` from `_get_region` on an SNS ARN with fewer
than four colon-separated parts). -/
inductive PublisherInitError where
  | config : InitError → PublisherInitError
  | registration : PyExc → PublisherInitError
  deriving DecidableEq

/-- `AwsEventPublisher.__init__`: builds the `AwsEventManager` from the
config and, only when that construction succeeded, registers a callback for
every event of the catalog (`event_enum_values`) in order. The second
component is the resulting registry: on a configuration failure the
exception propagates before any `add_callback` call, so the registry is
returned unchanged; on a registration failure the registrations already
made stay in place. -/
def publisherInit (cfg : EventsConfig) (catalog : List RayEvent) (reg : Registry) :
    Except PublisherInitError AwsEventManager × Registry :=
  match AwsEventManager.init cfg with
  | .error e => (.error (.config e), reg)
  | .ok mgr =>
    match registerAll mgr catalog reg with
    | (reg2, some ex) => (.error (.registration ex), reg2)
    | (reg2, none) => (.ok mgr, reg2)

/-! ## The SNS callback (`AwsEventManager._sns_callback`) -/

/-- The behaviour of `sns_client.publish(topic, message)` on this call, an
input to the embedding: success, a `botocore` `ClientError` carrying the
backend error detail `exc.response["Error"]`, or some other exception. -/
inductive PublishOutcome where
  | ok : PublishOutcome
  | clientError : String → PublishOutcome
  | exc : PyExc → PublishOutcome

/-- How one callback invocation ends: normal return, the terminal
`cli_logger.abort` with its diagnostic text, or an uncaught exception. -/
inductive HandlerResult where
  | ok : HandlerResult
  | aborted : String → HandlerResult
  | raised : PyExc → HandlerResult
  deriving DecidableEq

/-- What one callback invocation did: `payloadAfter` is the caller's
`event_data` dictionary after the call (the callback works on a deep copy,
so the embedding threads the caller's value through explicitly); `handed`
is the `(topic_arn, message)` pair passed to `sns_client.publish`, `none`
when control never reaches the publish call; `result` is how the call
ended. -/
structure SnsCallbackOut where
  payloadAfter : Dict
  handed : Option (String × Dict)
  result : HandlerResult

/-- The message built by `_sns_callback`:
`{**params, "state": event.state, "setupEventMetadata": event_dict,
"stateSequence": event.value - 1, "timestamp": round(time.time() * 1000)}`,
with `nowMs` standing for the rounded epoch milliseconds at the call. -/
def baseMessage (params : Dict) (event : RayEvent) (meta : Dict) (nowMs : Int) : Dict :=
  setKey (setKey (setKey (setKey params
    "state" (.str event.state))
    "setupEventMetadata" (.dict meta))
    "stateSequence" (.int (event.value - 1)))
    "timestamp" (.int nowMs)

/-- The diagnostic of the `cli_logger.abort` call in the `except
ClientError` branch: the format string
"... Error caught when publishing ... create cluster events to SNS" filled
with `exc.response["Error"]` and `event.name`. -/
def abortDiag (errorDetail eventName : String) : String :=
  errorDetail ++ " Error caught when publishing " ++ eventName
    ++ " create cluster events to SNS"

/-- The body of `_sns_callback`'s `try` block up to (but excluding) the
`sns_client.publish` call: deep-copies the payload, pops `"event_name"`
(`KeyError` when absent; an `AttributeError` on the later `event.state`
access when the value is not a `RayEvent`), reads
`event_dict.get("node_context", {})`, builds the message, and when the node
context is truthy adds `rayNodeId` and `rayNodeType` from its
`node_id`/`is_head_node` entries. Returns the event and the message handed
to publish, or the exception that escaped. -/
def prepareMessage (params : Dict) (eventData : Dict) (nowMs : Int) :
    Except PyExc (RayEvent × Dict) :=
  match popKey (deepcopy eventData) "event_name" with
  | none => .error (.keyError "event_name")
  | some (v, event_dict) =>
    match v with
    | .event event =>
      let node_context := (getVal event_dict "node_context").getD (.dict [])
      let message := baseMessage params event event_dict nowMs
      if truthy node_context then
        match subscript node_context "node_id" with
        | .error e => .error e
        | .ok nid =>
          let message := setKey message "rayNodeId" nid
          match subscript node_context "is_head_node" with
          | .error e => .error e
          | .ok hd =>
            .ok (event, setKey message "rayNodeType"
              (.str (if truthy hd then "HEAD" else "WORKER")))
      else
        .ok (event, message)
    | _ => .error .attributeError

/-- `AwsEventManager._sns_callback`: prepares the message and calls
`sns_client.publish(self.uri, json.dumps(message))` (the message is kept
unserialized in `handed`; `json.dumps` is injective on these messages and
the claims concern the message's content). A `ClientError` from publish is
caught and turned into the terminal `cli_logger.abort`; every other
exception propagates unmodified; the caller's payload is never written
to — every update acts on the deep copy. -/
def snsCallback (uri : String) (params : Dict) (eventData : Dict) (nowMs : Int)
    (outcome : PublishOutcome) : SnsCallbackOut :=
  match prepareMessage params eventData nowMs with
  | .error e => ⟨eventData, none, .raised e⟩
  | .ok (event, message) =>
    match outcome with
    | .ok => ⟨eventData, some (uri, message), .ok⟩
    | .clientError d => ⟨eventData, some (uri, message), .aborted (abortDiag d event.name)⟩
    | .exc e => ⟨eventData, some (uri, message), .raised e⟩

/-- The outbound message shape exactly as the specification states it:
"all bound-context entries, overlaid with state: EventKind.name,
setupEventMetadata: remaining metadata, stateSequence: EventKind.rank − 1,
timestamp: current epoch time in milliseconds" — written from the spec's
words, to be compared with the message the source builds. -/
def specMessage (boundContext : Dict) (ev : RayEvent) (meta : Dict) (nowMs : Int) : Dict :=
  setKey (setKey (setKey (setKey boundContext
    "state" (.str ev.name))
    "setupEventMetadata" (.dict meta))
    "stateSequence" (.int (ev.value - 1)))
    "timestamp" (.int nowMs)

/-- The message component of the pair a callback run handed to the
transport (the empty dict when no publish happened): a convenience
accessor for stating concrete facts about one run. -/
def handedMessage (o : SnsCallbackOut) : Dict :=
  (o.handed.map (fun p => p.2)).getD []

/-! ## Fan-out execution and the publisher facade -/

/-- Runs one registered binding on an event payload.  The three stub
callbacks raise their `NotImplementedError` immediately (modelled from the
spec: unsupported backends fail with an explicit signal only when
invoked). -/
def runHandler (h : Handler) (payload : Dict) (nowMs : Int) (outcome : PublishOutcome) :
    SnsCallbackOut :=
  match h with
  | .snsCb uri _ params => snsCallback uri params payload nowMs outcome
  | .lambdaCb => ⟨payload, none, .raised (.notImplementedError "AWS Lambda callback is not implemented")⟩
  | .cloudwatchCb => ⟨payload, none, .raised (.notImplementedError "AWS Cloudwatch callback is not implemented")⟩
  | .apiGatewayCb => ⟨payload, none, .raised (.notImplementedError "AWS API Gateway callback is not implemented")⟩

/-- How a fan-out run stops early: a handler's terminal abort or an
uncaught exception (no error containment between handlers). -/
inductive Stop where
  | aborted : String → Stop
  | raised : PyExc → Stop
  deriving DecidableEq

/-- Modelled from the spec: the registry's fan-out invokes the bindings in
order; a handler failure stops the run and propagates (sibling handlers
after it do not run). Returns the successfully delivered
`(topic, message)` pairs and the stop, if any: a handler that aborted or
raised delivered nothing. -/
def runBindings (hs : List Handler) (payload : Dict) (nowMs : Int)
    (outcome : PublishOutcome) : List (String × Dict) × Option Stop :=
  match hs with
  | [] => ([], none)
  | h :: rest =>
    let out := runHandler h payload nowMs outcome
    match out.result with
    | .ok =>
      let (msgs, st) := runBindings rest payload nowMs outcome
      (out.handed.toList ++ msgs, st)
    | .aborted d => ([], some (.aborted d))
    | .raised e => ([], some (.raised e))

/-- The bindings registered for one event, in registration order. -/
def bindingsFor (reg : Registry) (e : RayEvent) : List Handler :=
  (reg.filter (fun b => decide (b.1 = e))).map (·.2)

/-- Modelled from the spec: `_EventSystem.execute_callback` fans the
payload out to every binding of the event, in registration order. -/
def executeCallback (reg : Registry) (e : RayEvent) (payload : Dict) (nowMs : Int)
    (outcome : PublishOutcome) : List (String × Dict) × Option Stop :=
  runBindings (bindingsFor reg e) payload nowMs outcome

/-- The fixed payload `{"foo": "bar"}` that `AwsEventPublisher.publish`
hands to `execute_callback`. -/
def publishPayload : Dict := [("foo", PyVal.str "bar")]

/-- `AwsEventPublisher.publish(trace_id, event)`:
`global_event_system.execute_callback(event, {"foo": "bar"})` — the
`trace_id` argument is accepted and ignored. -/
def publish (reg : Registry) (trace_id : String) (event : RayEvent) (nowMs : Int)
    (outcome : PublishOutcome) : List (String × Dict) × Option Stop :=
  executeCallback reg event publishPayload nowMs outcome

/-! ## Helper lemmas about the dictionary operations -/

theorem getVal_setKey_self (d : Dict) (k : String) (v : PyVal) :
    getVal (setKey d k v) k = some v := by
  induction d with
  | nil => simp [setKey, getVal]
  | cons p rest ih =>
    obtain ⟨k1, v1⟩ := p
    by_cases h : k1 = k
    · simp [setKey, h, getVal]
    · simp [setKey, h, getVal, ih]

theorem getVal_setKey_other (d : Dict) (k k2 : String) (v : PyVal) (h : k2 ≠ k) :
    getVal (setKey d k v) k2 = getVal d k2 := by
  induction d with
  | nil => simp [setKey, getVal, Ne.symm h]
  | cons p rest ih =>
    obtain ⟨k1, v1⟩ := p
    by_cases h1 : k1 = k
    · subst h1
      simp [setKey, getVal, Ne.symm h]
    · by_cases h2 : k1 = k2
      · simp [setKey, h1, getVal, h2, h]
      · simp [setKey, h1, getVal, h2, ih]

theorem getVal_eraseKey_other (d : Dict) (k k2 : String) (h : k2 ≠ k) :
    getVal (eraseKey d k) k2 = getVal d k2 := by
  induction d with
  | nil => simp [eraseKey]
  | cons p rest ih =>
    obtain ⟨k1, v1⟩ := p
    by_cases h1 : k1 = k
    · subst h1
      simp [eraseKey, getVal, Ne.symm h, ih]
    · by_cases h2 : k1 = k2
      · simp [eraseKey, h1, getVal, h2, h]
      · simp [eraseKey, h1, getVal, h2, ih]

/-! ## Helper lemmas about the string operations -/

theorem isPrefixOf_eq_true_iff {l1 l2 : List Char} :
    l1.isPrefixOf l2 = true ↔ l1 <+: l2 :=
  List.isPrefixOf_iff_prefix

theorem listContainsSub_append_middle (x y z : List Char) :
    listContainsSub (x ++ y ++ z) y = true := by
  unfold listContainsSub
  rw [List.any_eq_true]
  refine ⟨y ++ z, ?_, ?_⟩
  · rw [List.mem_tails, List.append_assoc]
    exact List.suffix_append x (y ++ z)
  · exact isPrefixOf_eq_true_iff.mpr (List.prefix_append y z)

theorem pyContains_append_middle (x y z : String) :
    pyContains (x ++ y ++ z) y = true := by
  unfold pyContains
  rw [String.data_append, String.data_append]
  exact listContainsSub_append_middle x.data y.data z.data

theorem pyContains_abortDiag_detail (d n : String) :
    pyContains (abortDiag d n) d = true := by
  unfold pyContains abortDiag
  simp only [String.data_append]
  have h := listContainsSub_append_middle [] d.data
    ((" Error caught when publishing ").data ++ n.data ++ (" create cluster events to SNS").data)
  simpa [List.append_assoc] using h

theorem pyContains_abortDiag_name (d n : String) :
    pyContains (abortDiag d n) n = true := by
  unfold pyContains abortDiag
  simp only [String.data_append]
  have h := listContainsSub_append_middle (d.data ++ (" Error caught when publishing ").data)
    n.data (" create cluster events to SNS").data
  simpa [List.append_assoc] using h

theorem prefix_total {p q s : List Char} (hp : p <+: s) (hq : q <+: s) :
    p <+: q ∨ q <+: p :=
  List.prefix_or_prefix_of_prefix hp hq

/-- Two scheme tests of the `elif` chain cannot both succeed when neither
scheme string is a prefix of the other. -/
theorem pyStartsWith_excl {s p q : String}
    (hp : pyStartsWith s p = true)
    (h1 : p.data.isPrefixOf q.data = false) (h2 : q.data.isPrefixOf p.data = false) :
    pyStartsWith s q = false := by
  cases hq : pyStartsWith s q
  · rfl
  · exfalso
    unfold pyStartsWith at hp hq
    rw [isPrefixOf_eq_true_iff] at hp hq
    rcases prefix_total hp hq with h | h
    · rw [← isPrefixOf_eq_true_iff] at h
      rw [h] at h1
      exact Bool.noConfusion h1
    · rw [← isPrefixOf_eq_true_iff] at h
      rw [h] at h2
      exact Bool.noConfusion h2

/-! ## Inversion lemmas for the SNS callback -/

theorem popKey_eq_some {d : Dict} {key : String} {v : PyVal} {rest : Dict}
    (h : popKey d key = some (v, rest)) :
    getVal d key = some v ∧ rest = eraseKey d key := by
  unfold popKey at h
  cases hg : getVal d key with
  | none => rw [hg] at h; exact absurd h (by simp)
  | some w =>
    rw [hg] at h
    simp at h
    exact ⟨by rw [h.1], h.2.symm⟩

/-- Everything `prepareMessage` can have done when it returned a message:
the payload carried the event under `"event_name"`, and the message is the
base overlay, extended with the two `rayNode` entries exactly when the
node context read from the popped copy was truthy. -/
theorem prepareMessage_ok_inv {params payload : Dict} {nowMs : Int} {ev0 : RayEvent} {m0 : Dict}
    (h : prepareMessage params payload nowMs = .ok (ev0, m0)) :
    getVal payload "event_name" = some (.event ev0)
    ∧ ((truthy ((getVal (eraseKey payload "event_name") "node_context").getD (.dict [])) = false
          ∧ m0 = baseMessage params ev0 (eraseKey payload "event_name") nowMs)
       ∨ (∃ nid hd,
            truthy ((getVal (eraseKey payload "event_name") "node_context").getD (.dict [])) = true
            ∧ subscript ((getVal (eraseKey payload "event_name") "node_context").getD (.dict [])) "node_id" = .ok nid
            ∧ subscript ((getVal (eraseKey payload "event_name") "node_context").getD (.dict [])) "is_head_node" = .ok hd
            ∧ m0 = setKey (setKey (baseMessage params ev0 (eraseKey payload "event_name") nowMs)
                  "rayNodeId" nid)
                  "rayNodeType" (.str (if truthy hd then "HEAD" else "WORKER")))) := by
  unfold prepareMessage at h
  split at h
  · exact absurd h (by simp)
  · next v event_dict hpop =>
    simp only [deepcopy] at hpop
    obtain ⟨hget, hrest⟩ := popKey_eq_some hpop
    subst hrest
    split at h
    · next ev1 =>
      dsimp only [] at h
      split at h
      · -- truthy branch
        next htr =>
        split at h
        · exact absurd h (by simp)
        · next nid hsub1 =>
          split at h
          · exact absurd h (by simp)
          · next hd hsub2 =>
            simp only [Except.ok.injEq, Prod.mk.injEq] at h
            obtain ⟨hev, hm⟩ := h
            subst hev
            exact ⟨hget, Or.inr ⟨nid, hd, htr, hsub1, hsub2, hm.symm⟩⟩
      · next htr =>
        simp only [Except.ok.injEq, Prod.mk.injEq] at h
        obtain ⟨hev, hm⟩ := h
        subst hev
        exact ⟨hget, Or.inl ⟨by simpa using htr, hm.symm⟩⟩
    · next hne =>
      exact absurd h (by simp)

/-- When the callback handed a message to the transport, the topic is the
manager's URI and the message came out of a successful `prepareMessage`. -/
theorem snsCallback_handed_inv {uri : String} {params payload : Dict} {nowMs : Int}
    {outcome : PublishOutcome} {u0 : String} {m : Dict}
    (h : (snsCallback uri params payload nowMs outcome).handed = some (u0, m)) :
    u0 = uri ∧ ∃ ev0, prepareMessage params payload nowMs = .ok (ev0, m) := by
  unfold snsCallback at h
  cases hprep : prepareMessage params payload nowMs with
  | error e => rw [hprep] at h; exact absurd h (by simp)
  | ok p =>
    obtain ⟨ev0, m0⟩ := p
    rw [hprep] at h
    cases outcome <;> simp at h <;>
      exact ⟨h.1.symm, ev0, by rw [h.2]⟩

/-- The no-node run of `prepareMessage`, in the forward direction. -/
theorem prepareMessage_no_node (params : Dict) {payload : Dict} (nowMs : Int) {ev : RayEvent}
    (hev : getVal payload "event_name" = some (.event ev))
    (hnode : truthy ((getVal payload "node_context").getD (.dict [])) = false) :
    prepareMessage params payload nowMs =
      .ok (ev, baseMessage params ev (eraseKey payload "event_name") nowMs) := by
  have hpop : popKey (deepcopy payload) "event_name" =
      some (.event ev, eraseKey payload "event_name") := by
    unfold popKey deepcopy
    rw [hev]
  have hget2 : getVal (eraseKey payload "event_name") "node_context" =
      getVal payload "node_context" :=
    getVal_eraseKey_other payload "event_name" "node_context" (by decide)
  unfold prepareMessage
  rw [hpop]
  dsimp only []
  rw [hget2]
  rw [if_neg (by rw [hnode]; exact Bool.false_ne_true)]

/-- The message keys of `baseMessage` other than its four fixed keys come
from the bound parameters. -/
theorem getVal_baseMessage_other (params : Dict) (ev : RayEvent) (meta : Dict) (nowMs : Int)
    (k : String) (h1 : k ≠ "state") (h2 : k ≠ "setupEventMetadata")
    (h3 : k ≠ "stateSequence") (h4 : k ≠ "timestamp") :
    getVal (baseMessage params ev meta nowMs) k = getVal params k := by
  unfold baseMessage
  rw [getVal_setKey_other _ _ _ _ h4, getVal_setKey_other _ _ _ _ h3,
    getVal_setKey_other _ _ _ _ h2, getVal_setKey_other _ _ _ _ h1]

theorem getVal_baseMessage_meta (params : Dict) (ev : RayEvent) (meta : Dict) (nowMs : Int) :
    getVal (baseMessage params ev meta nowMs) "setupEventMetadata" = some (.dict meta) := by
  unfold baseMessage
  rw [getVal_setKey_other _ _ _ _ (by decide), getVal_setKey_other _ _ _ _ (by decide),
    getVal_setKey_self]

/-! ## Lemmas about registration -/

theorem addCallback_no_match {mgr : AwsEventManager} (e : RayEvent) (reg : Registry)
    (h1 : pyStartsWith mgr.uri "arn:aws:sns" = false)
    (h2 : pyStartsWith mgr.uri "arn:aws:lambda" = false)
    (h3 : pyStartsWith mgr.uri "arn:aws:logs" = false)
    (h4 : pyStartsWith mgr.uri "arn:aws:apigateway" = false) :
    addCallback mgr e reg = .ok reg := by
  simp [addCallback, h1, h2, h3, h4]

theorem registerAll_no_match {mgr : AwsEventManager} (catalog : List RayEvent)
    (reg : Registry)
    (h1 : pyStartsWith mgr.uri "arn:aws:sns" = false)
    (h2 : pyStartsWith mgr.uri "arn:aws:lambda" = false)
    (h3 : pyStartsWith mgr.uri "arn:aws:logs" = false)
    (h4 : pyStartsWith mgr.uri "arn:aws:apigateway" = false) :
    registerAll mgr catalog reg = (reg, none) := by
  induction catalog generalizing reg with
  | nil => rfl
  | cons e rest ih =>
    unfold registerAll
    rw [addCallback_no_match e reg h1 h2 h3 h4]
    exact ih reg

/-- Every branch of `add_callback` returns without an exception, provided
the URI is not SNS-prefixed or `_get_region` finds a region part. -/
theorem addCallback_isOk {mgr : AwsEventManager} (e : RayEvent) (reg : Registry)
    (h : pyStartsWith mgr.uri "arn:aws:sns" = false ∨ (getRegion mgr.uri).isSome = true) :
    ∃ reg2, addCallback mgr e reg = .ok reg2 := by
  by_cases hsns : pyStartsWith mgr.uri "arn:aws:sns" = true
  · rcases h with h | h
    · rw [hsns] at h
      exact absurd h (by simp)
    · obtain ⟨r, hr⟩ := Option.isSome_iff_exists.mp h
      unfold addCallback
      rw [if_pos hsns, hr]
      exact ⟨_, rfl⟩
  · unfold addCallback
    rw [if_neg hsns]
    split
    · exact ⟨_, rfl⟩
    · split
      · exact ⟨_, rfl⟩
      · split
        · exact ⟨_, rfl⟩
        · exact ⟨_, rfl⟩

theorem registerAll_no_error {mgr : AwsEventManager} (catalog : List RayEvent)
    (reg : Registry)
    (h : pyStartsWith mgr.uri "arn:aws:sns" = false ∨ (getRegion mgr.uri).isSome = true) :
    (registerAll mgr catalog reg).2 = none := by
  induction catalog generalizing reg with
  | nil => rfl
  | cons e rest ih =>
    obtain ⟨reg2, hok⟩ := addCallback_isOk e reg h
    unfold registerAll
    rw [hok]
    exact ih reg2

/-! ## C4 — construction-time validation -/

/-- C4 (amended): constructing the publisher fails with the corresponding
configuration error — leaving the registry untouched, so no partial
construction — exactly when the notification identifier is missing, is
`None`, or does not contain the `"arn:aws"` marker the source recognizes
(in particular the empty identifier fails). An identifier passing that
check constructs the manager, but publisher construction can still fail
during the eager registration: an SNS-prefixed identifier with fewer than
four colon-separated parts raises `IndexError` from `_get_region` on the
first catalog event, registering nothing; every accepted identifier that
is not SNS-prefixed, or whose ARN has a region part, constructs
successfully. -/
theorem c4_construction_validation (cfg : EventsConfig) (catalog : List RayEvent)
    (reg : Registry) :
    (cfg.notification_uri = none →
      publisherInit cfg catalog reg = (.error (.config .keyErrorUri), reg))
    ∧ (cfg.notification_uri = some none →
      publisherInit cfg catalog reg =
        (.error (.config (.assertionError "`notification_uri` is a required field in `events`")), reg))
    ∧ (∀ uri, cfg.notification_uri = some (some uri) →
      pyContains uri "arn:aws" = false →
      publisherInit cfg catalog reg =
        (.error (.config (.assertionError ("Invalid ARN specified: " ++ uri))), reg))
    ∧ (pyContains "" "arn:aws" = false)
    ∧ (∀ uri e rest, cfg.notification_uri = some (some uri) →
      pyContains uri "arn:aws" = true →
      pyStartsWith uri "arn:aws:sns" = true →
      getRegion uri = none →
      publisherInit cfg (e :: rest) reg = (.error (.registration .indexError), reg))
    ∧ (∀ uri, cfg.notification_uri = some (some uri) →
      pyContains uri "arn:aws" = true →
      (pyStartsWith uri "arn:aws:sns" = false ∨ (getRegion uri).isSome = true) →
      (publisherInit cfg catalog reg).1 = .ok ⟨uri, cfg.parameters.getD []⟩) := by
  refine ⟨?_, ?_, ?_, by decide, ?_, ?_⟩
  · intro h
    unfold publisherInit AwsEventManager.init
    rw [h]
  · intro h
    unfold publisherInit AwsEventManager.init
    rw [h]
  · intro uri huri hbad
    unfold publisherInit AwsEventManager.init
    rw [huri]
    simp [hbad]
  · intro uri e rest huri hgood hsns hnone
    unfold publisherInit AwsEventManager.init
    rw [huri]
    simp only [hgood, if_true]
    unfold registerAll addCallback
    rw [if_pos hsns, hnone]
  · intro uri huri hgood hreg
    unfold publisherInit AwsEventManager.init
    rw [huri]
    simp only [hgood, if_true]
    have h2 := @registerAll_no_error ⟨uri, cfg.parameters.getD []⟩ catalog reg hreg
    cases hra : registerAll ⟨uri, cfg.parameters.getD []⟩ catalog reg with
    | mk reg2 st =>
      rw [hra] at h2
      have h3 : st = none := h2
      subst h3
      rfl

/-- Witness for C4: each validation case at a concrete configuration,
including the `IndexError` at the short SNS ARN `arn:aws:sns` and a
successful construction at a full SNS ARN. -/
theorem c4_witness :
    publisherInit ⟨none, none⟩ [] [] = (.error (.config .keyErrorUri), [])
    ∧ publisherInit ⟨some none, none⟩ [] [] =
      (.error (.config (.assertionError "`notification_uri` is a required field in `events`")), [])
    ∧ publisherInit ⟨some (some ""), none⟩ [] [] =
      (.error (.config (.assertionError "Invalid ARN specified: ")), [])
    ∧ publisherInit ⟨some (some "arn:aws:sns"), none⟩ [⟨"CreateClusterEvent", 1⟩] [] =
      (.error (.registration .indexError), [])
    ∧ (publisherInit ⟨some (some "arn:aws:sns:us-west-2:1234:topic"), none⟩
        [⟨"CreateClusterEvent", 1⟩] []).1 =
      .ok ⟨"arn:aws:sns:us-west-2:1234:topic", []⟩ := by
  refine ⟨(c4_construction_validation ⟨none, none⟩ [] []).1 rfl,
    (c4_construction_validation ⟨some none, none⟩ [] []).2.1 rfl,
    ?_, ?_, ?_⟩
  · have h := (c4_construction_validation ⟨some (some ""), none⟩ [] []).2.2.1 "" rfl (by decide)
    simpa using h
  · exact (c4_construction_validation ⟨some (some "arn:aws:sns"), none⟩
      [⟨"CreateClusterEvent", 1⟩] []).2.2.2.2.1 "arn:aws:sns" ⟨"CreateClusterEvent", 1⟩ []
      rfl (by decide) (by decide) rfl
  · exact (c4_construction_validation ⟨some (some "arn:aws:sns:us-west-2:1234:topic"), none⟩
      [⟨"CreateClusterEvent", 1⟩] []).2.2.2.2.2 "arn:aws:sns:us-west-2:1234:topic"
      rfl (by decide) (Or.inr rfl)

/-- Counterexample for C4 as stated: `"arn:aws:sns"` passes the
construction-time ARN check, yet publisher construction does not succeed —
the eager registration raises `IndexError` from `_get_region`
(`"arn:aws:sns".split(":")` has only three parts), so the claim's
universal success clause is false. -/
theorem c4_counterexample :
    pyContains "arn:aws:sns" "arn:aws" = true
    ∧ publisherInit ⟨some (some "arn:aws:sns"), none⟩ [⟨"CreateClusterEvent", 1⟩] [] =
      (.error (.registration .indexError), []) :=
  ⟨by decide, rfl⟩

/-! ## C5 — unmatched scheme is a silent no-op -/

/-- C5: a target whose identifier passes the construction-time ARN check
but starts with none of the four scheme table entries yields a publisher
whose registration registers zero bindings (the registry stays empty, no
error), and executing any event on that registry delivers no message and
raises nothing. -/
theorem c5_unmatched_scheme_noop (uri : String) (params : Option Dict)
    (catalog : List RayEvent) (event : RayEvent) (payload : Dict) (nowMs : Int)
    (outcome : PublishOutcome)
    (hvalid : pyContains uri "arn:aws" = true)
    (h1 : pyStartsWith uri "arn:aws:sns" = false)
    (h2 : pyStartsWith uri "arn:aws:lambda" = false)
    (h3 : pyStartsWith uri "arn:aws:logs" = false)
    (h4 : pyStartsWith uri "arn:aws:apigateway" = false) :
    publisherInit ⟨some (some uri), params⟩ catalog [] = (.ok ⟨uri, params.getD []⟩, [])
    ∧ executeCallback (publisherInit ⟨some (some uri), params⟩ catalog []).2
        event payload nowMs outcome = ([], none) := by
  have hinit : publisherInit ⟨some (some uri), params⟩ catalog [] =
      (.ok ⟨uri, params.getD []⟩, []) := by
    unfold publisherInit AwsEventManager.init
    simp only [hvalid, if_true]
    rw [registerAll_no_match catalog [] h1 h2 h3 h4]
  exact ⟨hinit, by rw [hinit]; rfl⟩

/-- Witness for C5: the S3 ARN `arn:aws:s3:::bucket` passes construction
but matches no scheme, so nothing is registered and execution is a no-op. -/
theorem c5_witness :
    publisherInit ⟨some (some "arn:aws:s3:::bucket"), none⟩ [⟨"CreateClusterEvent", 1⟩] [] =
      (.ok ⟨"arn:aws:s3:::bucket", []⟩, [])
    ∧ executeCallback
        (publisherInit ⟨some (some "arn:aws:s3:::bucket"), none⟩ [⟨"CreateClusterEvent", 1⟩] []).2
        ⟨"CreateClusterEvent", 1⟩ publishPayload 0 .ok = ([], none) :=
  c5_unmatched_scheme_noop "arn:aws:s3:::bucket" none [⟨"CreateClusterEvent", 1⟩]
    ⟨"CreateClusterEvent", 1⟩ publishPayload 0 .ok
    (by decide) (by decide) (by decide) (by decide) (by decide)

/-! ## C7 — the caller's payload is never mutated -/

/-- C7: for every invocation of the SNS callback, the caller's payload
mapping is unchanged after the callback returns: every dictionary update
acts on the deep copy, never on the caller's `event_data`. -/
theorem c7_payload_not_mutated (uri : String) (params eventData : Dict) (nowMs : Int)
    (outcome : PublishOutcome) :
    (snsCallback uri params eventData nowMs outcome).payloadAfter = eventData := by
  unfold snsCallback
  cases h : prepareMessage params eventData nowMs with
  | error e => rfl
  | ok p =>
    obtain ⟨ev, m⟩ := p
    cases outcome <;> rfl

/-! ## C9 — trace_id does not influence publishing -/

/-- C9: for every event and every pair of trace identifiers, the Publisher
Facade's `publish` behaves identically: `trace_id` is accepted but ignored,
so the dispatch result (delivered messages and stop behaviour) is the
same. -/
theorem c9_trace_id_not_threaded (reg : Registry) (t1 t2 : String) (event : RayEvent)
    (nowMs : Int) (outcome : PublishOutcome) :
    publish reg t1 event nowMs outcome = publish reg t2 event nowMs outcome := rfl

/-! ## C10 — publish's fixed payload can never reach the transport -/

/-- C10: `publish` always hands the fixed payload `{"foo": "bar"}` to the
fan-out; that payload lacks the reserved `"event_name"` key, so every SNS
handler raises `KeyError` at the extraction step, and `publish` can never
deliver an outbound message — for any registry, the list of delivered
messages is empty. -/
theorem c10_publish_never_delivers (reg : Registry) (t : String) (event : RayEvent)
    (nowMs : Int) (outcome : PublishOutcome) :
    getVal publishPayload "event_name" = none
    ∧ (publish reg t event nowMs outcome).1 = []
    ∧ ∀ (u r : String) (p : Dict),
        runHandler (.snsCb u r p) publishPayload nowMs outcome =
          ⟨publishPayload, none, .raised (.keyError "event_name")⟩ := by
  refine ⟨rfl, ?_, fun u r p => rfl⟩
  show (runBindings (bindingsFor reg event) publishPayload nowMs outcome).1 = []
  cases bindingsFor reg event with
  | nil => rfl
  | cons h rest =>
    cases h with
    | snsCb u r p => rfl
    | lambdaCb => rfl
    | cloudwatchCb => rfl
    | apiGatewayCb => rfl

/-! ## C8 — one binding per matching target, context only on the SNS branch -/

/-- C8 (amended): for a target whose scheme prefix matches a table entry,
each registration call appends exactly one binding for the event, carrying
the first matching branch's handler — except that an SNS-prefixed ARN
without a region part raises `IndexError` from `_get_region` before
registering, appending nothing. Only the SNS branch binds the target's
extra parameters (plus the transport client) as context; the lambda, logs
and apigateway branches register their stub handlers with no bound
parameters. -/
theorem c8_one_binding_per_match (mgr : AwsEventManager) (e : RayEvent) (reg : Registry) :
    (∀ r, pyStartsWith mgr.uri "arn:aws:sns" = true → getRegion mgr.uri = some r →
      addCallback mgr e reg = .ok (reg ++ [(e, .snsCb mgr.uri r mgr.parameters)])
      ∧ contextOf (.snsCb mgr.uri r mgr.parameters) = mgr.parameters)
    ∧ (pyStartsWith mgr.uri "arn:aws:sns" = true → getRegion mgr.uri = none →
      addCallback mgr e reg = .error .indexError)
    ∧ (pyStartsWith mgr.uri "arn:aws:lambda" = true →
      addCallback mgr e reg = .ok (reg ++ [(e, .lambdaCb)]) ∧ contextOf .lambdaCb = [])
    ∧ (pyStartsWith mgr.uri "arn:aws:logs" = true →
      addCallback mgr e reg = .ok (reg ++ [(e, .cloudwatchCb)]) ∧ contextOf .cloudwatchCb = [])
    ∧ (pyStartsWith mgr.uri "arn:aws:apigateway" = true →
      addCallback mgr e reg = .ok (reg ++ [(e, .apiGatewayCb)]) ∧ contextOf .apiGatewayCb = []) := by
  refine ⟨?_, ?_, ?_, ?_, ?_⟩
  · intro r h hr
    unfold addCallback
    rw [if_pos h, hr]
    exact ⟨rfl, rfl⟩
  · intro h hr
    unfold addCallback
    rw [if_pos h, hr]
  · intro h
    have hsns : pyStartsWith mgr.uri "arn:aws:sns" = false :=
      pyStartsWith_excl h (by decide) (by decide)
    simp [addCallback, h, hsns, addCallbackHandler, contextOf]
  · intro h
    have hsns : pyStartsWith mgr.uri "arn:aws:sns" = false :=
      pyStartsWith_excl h (by decide) (by decide)
    have hlam : pyStartsWith mgr.uri "arn:aws:lambda" = false :=
      pyStartsWith_excl h (by decide) (by decide)
    simp [addCallback, h, hsns, hlam, addCallbackHandler, contextOf]
  · intro h
    have hsns : pyStartsWith mgr.uri "arn:aws:sns" = false :=
      pyStartsWith_excl h (by decide) (by decide)
    have hlam : pyStartsWith mgr.uri "arn:aws:lambda" = false :=
      pyStartsWith_excl h (by decide) (by decide)
    have hlog : pyStartsWith mgr.uri "arn:aws:logs" = false :=
      pyStartsWith_excl h (by decide) (by decide)
    simp [addCallback, h, hsns, hlam, hlog, addCallbackHandler, contextOf]

/-- Witness for C8: concrete registrations through the SNS branch (with a
region part), the SNS branch without one (the `IndexError`), and the
Lambda branch. -/
theorem c8_witness :
    (addCallback ⟨"arn:aws:sns:us-west-2:1234:topic", [("team", PyVal.str "infra")]⟩
        ⟨"CreateClusterEvent", 1⟩ [] =
      .ok [(⟨"CreateClusterEvent", 1⟩,
        Handler.snsCb "arn:aws:sns:us-west-2:1234:topic" "us-west-2"
          [("team", PyVal.str "infra")])])
    ∧ (addCallback ⟨"arn:aws:sns", []⟩ ⟨"CreateClusterEvent", 1⟩ [] = .error .indexError)
    ∧ (addCallback ⟨"arn:aws:lambda:us-west-2:1234:function:f", [("team", PyVal.str "infra")]⟩
        ⟨"CreateClusterEvent", 1⟩ [] =
      .ok [(⟨"CreateClusterEvent", 1⟩, Handler.lambdaCb)]) := by
  refine ⟨?_, ?_, ?_⟩
  · exact ((c8_one_binding_per_match
      ⟨"arn:aws:sns:us-west-2:1234:topic", [("team", PyVal.str "infra")]⟩
      ⟨"CreateClusterEvent", 1⟩ []).1 "us-west-2" (by decide) rfl).1
  · exact (c8_one_binding_per_match ⟨"arn:aws:sns", []⟩
      ⟨"CreateClusterEvent", 1⟩ []).2.1 (by decide) rfl
  · exact ((c8_one_binding_per_match
      ⟨"arn:aws:lambda:us-west-2:1234:function:f", [("team", PyVal.str "infra")]⟩
      ⟨"CreateClusterEvent", 1⟩ []).2.2.1 (by decide)).1

/-- Counterexample for C8 as stated: a Lambda-scheme target with non-empty
extra parameters registers a binding that carries no bound context at all —
the registered binding's context is empty, not the target's parameters. -/
theorem c8_counterexample :
    addCallback ⟨"arn:aws:lambda:us-west-2:1234:function:f", [("team", PyVal.str "infra")]⟩
        ⟨"CreateClusterEvent", 1⟩ [] =
      .ok [(⟨"CreateClusterEvent", 1⟩, Handler.lambdaCb)]
    ∧ contextOf Handler.lambdaCb = []
    ∧ ([("team", PyVal.str "infra")] : Dict) ≠ ([] : Dict) := by
  refine ⟨rfl, rfl, ?_⟩
  intro hcon
  exact List.noConfusion hcon

/-! ## C1 — the outbound message overlay -/

/-- C1 (amended): for every callback invocation whose payload contains the
reserved event-kind entry and whose node-context entry is absent or falsy,
the message handed to the transport is exactly the bound-context entries
overlaid with state = the event's display name, setupEventMetadata = the
payload minus the event-kind key, stateSequence = rank − 1 and timestamp =
the call's epoch milliseconds (the spec-shaped `specMessage`). -/
theorem c1_message_overlay (uri : String) (params payload : Dict) (nowMs : Int)
    (ev : RayEvent) (outcome : PublishOutcome)
    (hev : getVal payload "event_name" = some (.event ev))
    (hnode : truthy ((getVal payload "node_context").getD (.dict [])) = false) :
    (snsCallback uri params payload nowMs outcome).handed =
      some (uri, specMessage params ev (eraseKey payload "event_name") nowMs) := by
  have hprep := prepareMessage_no_node params nowMs hev hnode
  unfold snsCallback
  rw [hprep]
  cases outcome <;> rfl

/-- Witness for C1: the spec's own example — parameters
`{"team": "infra"}`, event `ScriptCompleted` of rank 3, no node context. -/
theorem c1_witness :
    (snsCallback "arn:aws:sns:us-west-2:1234:topic" [("team", PyVal.str "infra")]
        [("event_name", PyVal.event ⟨"ScriptCompleted", 3⟩), ("cmd", PyVal.str "init.sh")]
        1700000000000 .ok).handed =
      some ("arn:aws:sns:us-west-2:1234:topic",
        [("team", PyVal.str "infra"),
         ("state", PyVal.str "ScriptCompleted"),
         ("setupEventMetadata", PyVal.dict [("cmd", PyVal.str "init.sh")]),
         ("stateSequence", PyVal.int 2),
         ("timestamp", PyVal.int 1700000000000)]) :=
  c1_message_overlay "arn:aws:sns:us-west-2:1234:topic" [("team", PyVal.str "infra")]
    [("event_name", PyVal.event ⟨"ScriptCompleted", 3⟩), ("cmd", PyVal.str "init.sh")]
    1700000000000 ⟨"ScriptCompleted", 3⟩ .ok rfl rfl

/-- Counterexample for C1 as stated: with a node context in the payload the
handed message additionally carries `rayNodeId`, so it is not exactly the
claimed overlay (which has no such key). -/
theorem c1_counterexample :
    getVal (handedMessage (snsCallback "arn:aws:sns:us-west-2:1234:topic" []
        [("event_name", PyVal.event ⟨"ScriptCompleted", 3⟩),
         ("node_context", PyVal.ctx ⟨"i-123", true⟩)] 1000 .ok)) "rayNodeId" =
      some (PyVal.str "i-123")
    ∧ getVal (specMessage [] ⟨"ScriptCompleted", 3⟩
        (eraseKey [("event_name", PyVal.event ⟨"ScriptCompleted", 3⟩),
         ("node_context", PyVal.ctx ⟨"i-123", true⟩)] "event_name") 1000) "rayNodeId" =
      none :=
  ⟨rfl, rfl⟩

/-! ## C2 — what setupEventMetadata really contains -/

/-- C2 (amended): whenever the callback hands a message to the transport,
its setupEventMetadata is the payload with only the reserved event-kind key
removed: every other key of the payload — the reserved node-context key
included, when present — appears in it unchanged. -/
theorem c2_metadata_minus_event_key (uri : String) (params payload : Dict) (nowMs : Int)
    (outcome : PublishOutcome) (u0 : String) (m : Dict)
    (hhand : (snsCallback uri params payload nowMs outcome).handed = some (u0, m)) :
    getVal m "setupEventMetadata" = some (.dict (eraseKey payload "event_name"))
    ∧ ∀ k, k ≠ "event_name" →
        getVal (eraseKey payload "event_name") k = getVal payload k := by
  obtain ⟨-, ev0, hprep⟩ := snsCallback_handed_inv hhand
  obtain ⟨-, hcase⟩ := prepareMessage_ok_inv hprep
  refine ⟨?_, fun k hk => getVal_eraseKey_other payload "event_name" k hk⟩
  rcases hcase with ⟨-, hm⟩ | ⟨nid, hd, -, -, -, hm⟩
  · rw [hm, getVal_baseMessage_meta]
  · rw [hm, getVal_setKey_other _ _ _ _ (by decide), getVal_setKey_other _ _ _ _ (by decide),
      getVal_baseMessage_meta]

/-- Witness for C2: a payload with a node context and an extra key; the
metadata keeps both the node-context entry and the extra key. -/
theorem c2_witness :
    getVal [("state", PyVal.str "ScriptCompleted"),
            ("setupEventMetadata", PyVal.dict
              [("node_context", PyVal.ctx ⟨"i-123", true⟩), ("cmd", PyVal.str "init.sh")]),
            ("stateSequence", PyVal.int 2),
            ("timestamp", PyVal.int 1000),
            ("rayNodeId", PyVal.str "i-123"),
            ("rayNodeType", PyVal.str "HEAD")] "setupEventMetadata" =
      some (PyVal.dict [("node_context", PyVal.ctx ⟨"i-123", true⟩),
            ("cmd", PyVal.str "init.sh")])
    ∧ ∀ k, k ≠ "event_name" →
        getVal (eraseKey [("event_name", PyVal.event ⟨"ScriptCompleted", 3⟩),
          ("node_context", PyVal.ctx ⟨"i-123", true⟩), ("cmd", PyVal.str "init.sh")]
          "event_name") k =
        getVal [("event_name", PyVal.event ⟨"ScriptCompleted", 3⟩),
          ("node_context", PyVal.ctx ⟨"i-123", true⟩), ("cmd", PyVal.str "init.sh")] k :=
  c2_metadata_minus_event_key "arn:aws:sns:us-west-2:1234:topic" []
    [("event_name", PyVal.event ⟨"ScriptCompleted", 3⟩),
     ("node_context", PyVal.ctx ⟨"i-123", true⟩), ("cmd", PyVal.str "init.sh")]
    1000 .ok "arn:aws:sns:us-west-2:1234:topic" _ rfl

/-- Counterexample for C2 as stated: the reserved node-context key is NOT
removed — it appears inside setupEventMetadata (the source reads it with
`get`, not `pop`). -/
theorem c2_counterexample :
    getVal (handedMessage (snsCallback "arn:aws:sns:us-west-2:1234:topic" []
        [("event_name", PyVal.event ⟨"ScriptCompleted", 3⟩),
         ("node_context", PyVal.ctx ⟨"i-123", true⟩),
         ("cmd", PyVal.str "init.sh")] 1000 .ok)) "setupEventMetadata" =
      some (PyVal.dict [("node_context", PyVal.ctx ⟨"i-123", true⟩),
            ("cmd", PyVal.str "init.sh")])
    ∧ (getVal [("node_context", PyVal.ctx ⟨"i-123", true⟩),
            ("cmd", PyVal.str "init.sh")] "node_context").isSome = true :=
  ⟨rfl, rfl⟩

/-! ## C3 — the node keys of the message -/

/-- C3 (amended): whenever the callback hands a message to the transport:
with a node context in the payload the message carries `rayNodeId` (the
context's node id) and `rayNodeType` (`"HEAD"` if `is_head_node` else
`"WORKER"`); with no node-context entry — and bound parameters that do not
themselves carry those keys — neither key is present. (The source uses the
keys `rayNodeId`/`rayNodeType`, not `nodeId`/`nodeType`.) -/
theorem c3_node_keys (uri : String) (params payload : Dict) (nowMs : Int)
    (outcome : PublishOutcome) (u0 : String) (m : Dict)
    (hhand : (snsCallback uri params payload nowMs outcome).handed = some (u0, m)) :
    (∀ c : NodeContext, getVal payload "node_context" = some (.ctx c) →
      getVal m "rayNodeId" = some (.str c.node_id)
      ∧ getVal m "rayNodeType" = some (.str (if c.is_head_node then "HEAD" else "WORKER")))
    ∧ (getVal payload "node_context" = none →
      getVal params "rayNodeId" = none → getVal params "rayNodeType" = none →
      getVal m "rayNodeId" = none ∧ getVal m "rayNodeType" = none) := by
  obtain ⟨-, ev0, hprep⟩ := snsCallback_handed_inv hhand
  obtain ⟨-, hcase⟩ := prepareMessage_ok_inv hprep
  have herase : getVal (eraseKey payload "event_name") "node_context" =
      getVal payload "node_context" :=
    getVal_eraseKey_other payload "event_name" "node_context" (by decide)
  rw [herase] at hcase
  constructor
  · intro c hc
    rw [hc] at hcase
    rcases hcase with ⟨htr, -⟩ | ⟨nid, hd, -, hs1, hs2, hm⟩
    · rw [show ((some (PyVal.ctx c)).getD (PyVal.dict []) : PyVal) = .ctx c from rfl] at htr
      exact absurd htr (by simp [truthy])
    · rw [show ((some (PyVal.ctx c)).getD (PyVal.dict []) : PyVal) = .ctx c from rfl] at hs1 hs2
      unfold subscript at hs1 hs2
      simp at hs1 hs2
      rw [hm, ← hs1, ← hs2]
      refine ⟨?_, ?_⟩
      · rw [getVal_setKey_other _ _ _ _ (by decide), getVal_setKey_self]
      · rw [getVal_setKey_self]
        simp [truthy]
  · intro h0 hp1 hp2
    rw [h0] at hcase
    rcases hcase with ⟨-, hm⟩ | ⟨nid, hd, htr, -, -, -⟩
    · rw [hm]
      constructor
      · rw [getVal_baseMessage_other _ _ _ _ _ (by decide) (by decide) (by decide) (by decide)]
        exact hp1
      · rw [getVal_baseMessage_other _ _ _ _ _ (by decide) (by decide) (by decide) (by decide)]
        exact hp2
    · exact absurd htr (by simp [truthy])

/-- Witness for C3: a head-node payload gets `rayNodeType = "HEAD"` and the
node id; a payload without node context gets neither key. -/
theorem c3_witness :
    (getVal [("state", PyVal.str "ScriptCompleted"),
             ("setupEventMetadata", PyVal.dict [("node_context", PyVal.ctx ⟨"i-123", true⟩)]),
             ("stateSequence", PyVal.int 2),
             ("timestamp", PyVal.int 1000),
             ("rayNodeId", PyVal.str "i-123"),
             ("rayNodeType", PyVal.str "HEAD")] "rayNodeId" = some (PyVal.str "i-123")
     ∧ getVal [("state", PyVal.str "ScriptCompleted"),
             ("setupEventMetadata", PyVal.dict [("node_context", PyVal.ctx ⟨"i-123", true⟩)]),
             ("stateSequence", PyVal.int 2),
             ("timestamp", PyVal.int 1000),
             ("rayNodeId", PyVal.str "i-123"),
             ("rayNodeType", PyVal.str "HEAD")] "rayNodeType" = some (PyVal.str "HEAD"))
    ∧ (getVal [("state", PyVal.str "ScriptCompleted"),
             ("setupEventMetadata", PyVal.dict []),
             ("stateSequence", PyVal.int 2),
             ("timestamp", PyVal.int 1000)] "rayNodeId" = none
     ∧ getVal [("state", PyVal.str "ScriptCompleted"),
             ("setupEventMetadata", PyVal.dict []),
             ("stateSequence", PyVal.int 2),
             ("timestamp", PyVal.int 1000)] "rayNodeType" = none) := by
  constructor
  · exact (c3_node_keys "arn:aws:sns:us-west-2:1234:topic" []
      [("event_name", PyVal.event ⟨"ScriptCompleted", 3⟩),
       ("node_context", PyVal.ctx ⟨"i-123", true⟩)] 1000 .ok
      "arn:aws:sns:us-west-2:1234:topic" _ rfl).1 ⟨"i-123", true⟩ rfl
  · exact (c3_node_keys "arn:aws:sns:us-west-2:1234:topic" []
      [("event_name", PyVal.event ⟨"ScriptCompleted", 3⟩)] 1000 .ok
      "arn:aws:sns:us-west-2:1234:topic" _ rfl).2 rfl rfl rfl

/-- Counterexample for C3 as stated: with a head-node context the message
carries no `nodeType` (nor `nodeId`) key at all — the source writes
`rayNodeType`/`rayNodeId` instead. -/
theorem c3_counterexample :
    getVal (handedMessage (snsCallback "arn:aws:sns:us-west-2:1234:topic" []
        [("event_name", PyVal.event ⟨"ScriptCompleted", 3⟩),
         ("node_context", PyVal.ctx ⟨"i-123", true⟩)] 1000 .ok)) "nodeType" = none
    ∧ getVal (handedMessage (snsCallback "arn:aws:sns:us-west-2:1234:topic" []
        [("event_name", PyVal.event ⟨"ScriptCompleted", 3⟩),
         ("node_context", PyVal.ctx ⟨"i-123", true⟩)] 1000 .ok)) "nodeId" = none
    ∧ getVal (handedMessage (snsCallback "arn:aws:sns:us-west-2:1234:topic" []
        [("event_name", PyVal.event ⟨"ScriptCompleted", 3⟩),
         ("node_context", PyVal.ctx ⟨"i-123", true⟩)] 1000 .ok)) "rayNodeType" =
      some (PyVal.str "HEAD") :=
  ⟨rfl, rfl, rfl⟩

/-! ## C6 — ClientError is caught and aborted, everything else propagates -/

/-- C6: for every callback invocation that reaches the transport's publish
call, a transport-classified ClientError is caught and converted into the
terminal abort whose diagnostic contains both the backend error detail and
the triggering event's display name, with no retry; any other exception
from publish propagates out of the callback unmodified. -/
theorem c6_client_error_abort (uri : String) (params payload : Dict) (nowMs : Int)
    (ev : RayEvent) (d : String) (ex : PyExc) (u0 : String) (m : Dict)
    (hev : getVal payload "event_name" = some (.event ev))
    (hreach : (snsCallback uri params payload nowMs .ok).handed = some (u0, m)) :
    (snsCallback uri params payload nowMs (.clientError d)).result =
      .aborted (abortDiag d ev.name)
    ∧ pyContains (abortDiag d ev.name) d = true
    ∧ pyContains (abortDiag d ev.name) ev.name = true
    ∧ (snsCallback uri params payload nowMs (.exc ex)).result = .raised ex := by
  obtain ⟨-, ev0, hprep⟩ := snsCallback_handed_inv hreach
  have hev0 : ev = ev0 := by
    have h1 := (prepareMessage_ok_inv hprep).1
    rw [hev] at h1
    simpa using h1
  subst hev0
  refine ⟨?_, pyContains_abortDiag_detail d ev.name, pyContains_abortDiag_name d ev.name, ?_⟩
  · unfold snsCallback
    rw [hprep]
  · unfold snsCallback
    rw [hprep]

/-- Witness for C6: a concrete ClientError with detail `"AccessDenied"` on
event `CreateClusterEvent` aborts with a diagnostic containing both, and a
concrete non-ClientError exception propagates unmodified. -/
theorem c6_witness :
    (snsCallback "arn:aws:sns:us-west-2:1234:topic" []
        [("event_name", PyVal.event ⟨"CreateClusterEvent", 1⟩)] 0
        (.clientError "AccessDenied")).result =
      .aborted (abortDiag "AccessDenied" "CreateClusterEvent")
    ∧ pyContains (abortDiag "AccessDenied" "CreateClusterEvent") "AccessDenied" = true
    ∧ pyContains (abortDiag "AccessDenied" "CreateClusterEvent") "CreateClusterEvent" = true
    ∧ (snsCallback "arn:aws:sns:us-west-2:1234:topic" []
        [("event_name", PyVal.event ⟨"CreateClusterEvent", 1⟩)] 0
        (.exc (.other "connection reset"))).result = .raised (.other "connection reset") :=
  c6_client_error_abort "arn:aws:sns:us-west-2:1234:topic" []
    [("event_name", PyVal.event ⟨"CreateClusterEvent", 1⟩)] 0
    ⟨"CreateClusterEvent", 1⟩ "AccessDenied" (.other "connection reset")
    "arn:aws:sns:us-west-2:1234:topic" _ rfl rfl

end AwsEvents
